import Mathlib

/-
Verification of the FormFiller client component (frontend/src/components/VoiceClient.tsx).

The component keeps three pieces of state:
  - connectionState : "idle" | "connecting" | "connected" | "error"
  - formFields      : FormField[] | null
  - formValues      : Record<string, string>
plus a client handle that may be null before the mount effect runs.

State changes happen in:
  - the PipecatClient callbacks onConnected / onDisconnected / onError,
  - the onServerMessage switch over the inbound message type,
  - handleConnect (null-client guard, set "connecting", on catch set "error").

We embed these as pure functions on an explicit AppState and model the
event-driven execution as a step function over an Event alphabet, with a
decidable validity predicate describing which events the environment
(the UI button guards and the transport) can deliver in each state.
-/

namespace FormFiller

/-- `type ConnectionState = "idle" | "connecting" | "connected" | "error"` -/
inductive ConnectionState where
  | idle
  | connecting
  | connected
  | error
deriving DecidableEq, Repr

/-- `interface FormField { name: string; label: string; type: string }` -/
structure FormField where
  name : String
  label : String
  type : String
deriving DecidableEq, Repr

/-- The payload components the onServerMessage switch reads:
`payload.fields` (open_form), `payload.field_name` / `payload.field_value`
(update_field).  A message of any other type carries arbitrary payload,
which the handler never reads. -/
structure Payload where
  fields : List FormField
  field_name : String
  field_value : String
deriving DecidableEq, Repr

/-- The inbound message envelope `{ type: string, payload: object }`. -/
structure ServerMessage where
  type : String
  payload : Payload
deriving DecidableEq, Repr

/-- The component state: the client ref (null or initialised), the
connection state, `formFields : FormField[] | null`, and
`formValues : Record<string, string>` as an association list without
key duplication in any state the program constructs. -/
structure AppState where
  clientInit : Bool
  connectionState : ConnectionState
  formFields : Option (List FormField)
  formValues : List (String × String)
deriving DecidableEq, Repr

/-- The initial state of the component after mount:
`useState<ConnectionState>("idle")`, `useState<FormField[] | null>(null)`,
`useState<Record<string, string>>({})`, client ref set by the effect. -/
def initialState : AppState :=
  { clientInit := true
    connectionState := ConnectionState.idle
    formFields := none
    formValues := [] }

/-- JavaScript object spread `{...prev, [name]: value}` on a string record:
if the key is present its value is replaced in place, otherwise the pair is
appended at the end (JS insertion-order semantics). -/
def setFormValue : List (String × String) → String → String → List (String × String)
  | [], n, v => [(n, v)]
  | (k, w) :: rest, n, v =>
      if k = n then (k, v) :: rest else (k, w) :: setFormValue rest n v

/-- JavaScript record read `values[name]`: the value at the first
occurrence of the key, or undefined (`none`). -/
def getFormValue : List (String × String) → String → Option String
  | [], _ => none
  | (k, w) :: rest, n => if k = n then some w else getFormValue rest n

/-- `onConnected: () => setConnectionState("connected")` -/
def onConnected (s : AppState) : AppState :=
  { s with connectionState := ConnectionState.connected }

/-- `onDisconnected`: sets connectionState to "idle", formFields to null,
formValues to `{}`. -/
def onDisconnected (s : AppState) : AppState :=
  { s with connectionState := ConnectionState.idle
           formFields := none
           formValues := [] }

/-- `onError: () => setConnectionState("error")` — note: the form state is
not touched here. -/
def onError (s : AppState) : AppState :=
  { s with connectionState := ConnectionState.error }

/-- The `onServerMessage` switch over `message.type`:
"open_form" sets the fields and clears the values; "update_field" spreads
the new (field_name, field_value) pair into the values; "submit_form"
clears fields and values; the default case only logs. -/
def onServerMessage (msg : ServerMessage) (s : AppState) : AppState :=
  if msg.type = "open_form" then
    { s with formFields := some msg.payload.fields
             formValues := [] }
  else if msg.type = "update_field" then
    { s with formValues :=
        setFormValue s.formValues msg.payload.field_name msg.payload.field_value }
  else if msg.type = "submit_form" then
    { s with formFields := none
             formValues := [] }
  else
    s

/-- The synchronous prefix of `handleConnect`:
`if (!client.current) return;` then `setConnectionState("connecting")`. -/
def handleConnectStart (s : AppState) : AppState :=
  if s.clientInit then
    { s with connectionState := ConnectionState.connecting }
  else
    s

/-- The catch branch of `handleConnect`: `setConnectionState("error")`. -/
def handleConnectCatch (s : AppState) : AppState :=
  { s with connectionState := ConnectionState.error }

/-- The events the component reacts to: the caller entering
`handleConnect`, the connect attempt resolving (the transport fires
`onConnected`) or rejecting (the catch branch runs), the transport
reporting disconnection (`onDisconnected`) or an error (`onError`),
and an inbound server message. -/
inductive Event where
  | connectCall
  | connectOk
  | connectFail
  | disconnectEvt
  | errorEvt
  | serverMsg (msg : ServerMessage)
deriving DecidableEq, Repr

/-- One execution step: each event runs the corresponding handler code. -/
def step (s : AppState) : Event → AppState
  | Event.connectCall => handleConnectStart s
  | Event.connectOk => onConnected s
  | Event.connectFail => handleConnectCatch s
  | Event.disconnectEvt => onDisconnected s
  | Event.errorEvt => onError s
  | Event.serverMsg msg => onServerMessage msg s

/-- Run a sequence of events in arrival order. -/
def run (s : AppState) : List Event → AppState
  | [] => s
  | e :: es => run (step s e) es

/-- Which events the environment can deliver in a given state:
`handleConnect` is reachable only through the button, whose handler is
`handleDisconnect` while connected and which is disabled while connecting,
so a connect call occurs only from idle or error; the connect promise
resolves or rejects only while an attempt is pending (connecting);
`onDisconnected` fires for a live session (connected); `onError` fires for
a pending attempt or a live session; a server message can arrive at any
time — the handler has no connection-state guard. -/
def validEvent (s : AppState) : Event → Bool
  | Event.connectCall =>
      match s.connectionState with
      | ConnectionState.idle => true
      | ConnectionState.error => true
      | _ => false
  | Event.connectOk =>
      match s.connectionState with
      | ConnectionState.connecting => true
      | _ => false
  | Event.connectFail =>
      match s.connectionState with
      | ConnectionState.connecting => true
      | _ => false
  | Event.disconnectEvt =>
      match s.connectionState with
      | ConnectionState.connected => true
      | _ => false
  | Event.errorEvt =>
      match s.connectionState with
      | ConnectionState.connecting => true
      | ConnectionState.connected => true
      | _ => false
  | Event.serverMsg _ => true

/-- The transition table of §4.1 of the specification:
idle → connecting (connect), connecting → connected (success),
connecting → error (failure), connected → idle (disconnect / close),
connected → error (transport error), error → connecting (connect). -/
def specTrans : ConnectionState → ConnectionState → Bool
  | ConnectionState.idle, ConnectionState.connecting => true
  | ConnectionState.connecting, ConnectionState.connected => true
  | ConnectionState.connecting, ConnectionState.error => true
  | ConnectionState.connected, ConnectionState.idle => true
  | ConnectionState.connected, ConnectionState.error => true
  | ConnectionState.error, ConnectionState.connecting => true
  | _, _ => false

/-- The documented state space {idle, connecting, connected, error}. -/
def documentedStates : List ConnectionState :=
  [ConnectionState.idle, ConnectionState.connecting,
   ConnectionState.connected, ConnectionState.error]

/-- What the Connect/Disconnect button does in each connection state:
`onClick={isConnected ? handleDisconnect : handleConnect}` with
`disabled={isConnecting}`. -/
inductive ButtonAction where
  | callsConnect
  | callsDisconnect
  | disabled
deriving DecidableEq, Repr

/-- The button wiring from the render code. -/
def buttonAction (c : ConnectionState) : ButtonAction :=
  if c = ConnectionState.connected then ButtonAction.callsDisconnect
  else if c = ConnectionState.connecting then ButtonAction.disabled
  else ButtonAction.callsConnect

/-! ### Helper lemmas about the record operations and the message handler -/

theorem setFormValue_idem (vs : List (String × String)) (n v : String) :
    setFormValue (setFormValue vs n v) n v = setFormValue vs n v := by
  induction vs with
  | nil => simp [setFormValue]
  | cons hd tl ih =>
      obtain ⟨k, w⟩ := hd
      by_cases hk : k = n
      · simp [setFormValue, hk]
      · simp [setFormValue, hk, ih]

theorem getFormValue_set_self (vs : List (String × String)) (n v : String) :
    getFormValue (setFormValue vs n v) n = some v := by
  induction vs with
  | nil => simp [setFormValue, getFormValue]
  | cons hd tl ih =>
      obtain ⟨k, w⟩ := hd
      by_cases hk : k = n
      · simp [setFormValue, getFormValue, hk]
      · simp [setFormValue, getFormValue, hk, ih]

theorem getFormValue_set_other (vs : List (String × String)) (n v k : String)
    (hk : k ≠ n) :
    getFormValue (setFormValue vs n v) k = getFormValue vs k := by
  have hnk : ¬n = k := fun h => hk h.symm
  induction vs with
  | nil => simp [setFormValue, getFormValue, hnk]
  | cons hd tl ih =>
      obtain ⟨k', w⟩ := hd
      by_cases hk' : k' = n
      · subst hk'
        simp [setFormValue, getFormValue, hnk]
      · by_cases hkk : k' = k
        · simp [setFormValue, getFormValue, hk', hkk, hk]
        · simp [setFormValue, getFormValue, hk', hkk, ih]

theorem onServerMessage_connectionState (msg : ServerMessage) (s : AppState) :
    (onServerMessage msg s).connectionState = s.connectionState := by
  unfold onServerMessage
  split_ifs <;> rfl

theorem onServerMessage_clientInit (msg : ServerMessage) (s : AppState) :
    (onServerMessage msg s).clientInit = s.clientInit := by
  unfold onServerMessage
  split_ifs <;> rfl

theorem mem_documentedStates (c : ConnectionState) : c ∈ documentedStates := by
  cases c <;> simp [documentedStates]

/-- A concrete open_form message carrying one email field. -/
def openEmailForm : ServerMessage :=
  { type := "open_form",
    payload := { fields := [{ name := "email", label := "Email", type := "email" }],
                 field_name := "", field_value := "" } }

/-- A concrete update_field message filling the email field. -/
def updEmail : ServerMessage :=
  { type := "update_field",
    payload := { fields := [], field_name := "email", field_value := "a@b.com" } }

/-- A reachable state: connect succeeded, a form was opened and one field
was filled.  Connected, with an active form and a non-empty value map. -/
def demoState : AppState :=
  run initialState
    [Event.connectCall, Event.connectOk,
     Event.serverMsg openEmailForm, Event.serverMsg updEmail]

/-! ### Claim theorems -/

/-- C2: the form reducer implements exactly the transition table: for every
prior (FormDefinition, FieldValues), open_form(fields) sets the definition
to fields and the values to the empty mapping; update_field(name, value)
sets key name to value (insert or overwrite, other keys untouched by the
overwrite clause below) and leaves the definition unchanged; submit_form
clears the definition and the values. -/
theorem C2_reducer_table (s : AppState) (p : Payload) (k : String) :
    (onServerMessage { type := "open_form", payload := p } s).formFields = some p.fields ∧
    (onServerMessage { type := "open_form", payload := p } s).formValues = [] ∧
    (onServerMessage { type := "update_field", payload := p } s).formFields = s.formFields ∧
    getFormValue (onServerMessage { type := "update_field", payload := p } s).formValues
      p.field_name = some p.field_value ∧
    (k ≠ p.field_name →
      getFormValue (onServerMessage { type := "update_field", payload := p } s).formValues k =
        getFormValue s.formValues k) ∧
    (onServerMessage { type := "submit_form", payload := p } s).formFields = none ∧
    (onServerMessage { type := "submit_form", payload := p } s).formValues = [] := by
  refine ⟨?_, ?_, ?_, ?_, ?_, ?_, ?_⟩ <;>
    simp [onServerMessage, getFormValue_set_self]
  intro hk
  exact getFormValue_set_other _ _ _ _ hk

/-- C2 witness: the table evaluated at a concrete state and payload. -/
theorem C2_reducer_table_witness :
    ("other" : String) ≠ "email" ∧
    getFormValue
      (onServerMessage
        { type := "update_field",
          payload := { fields := [], field_name := "email", field_value := "a@b.com" } }
        initialState).formValues "other" =
      getFormValue initialState.formValues "other" :=
  ⟨by decide,
    (C2_reducer_table initialState
      { fields := [], field_name := "email", field_value := "a@b.com" }
      "other").2.2.2.2.1 (by decide)⟩

/-- C6: an inbound message whose type is none of open_form, update_field,
submit_form falls through to the default case, which only logs: the whole
component state — connection state and form state — is returned unchanged,
and the handler is a total function (no exception). -/
theorem C6_unknown_message_dropped (msg : ServerMessage) (s : AppState)
    (h1 : msg.type ≠ "open_form") (h2 : msg.type ≠ "update_field")
    (h3 : msg.type ≠ "submit_form") :
    onServerMessage msg s = s := by
  simp [onServerMessage, h1, h2, h3]

/-- C6 witness: a message of type "ping" leaves the initial state intact. -/
theorem C6_unknown_message_dropped_witness :
    onServerMessage
      { type := "ping", payload := { fields := [], field_name := "", field_value := "" } }
      initialState = initialState :=
  C6_unknown_message_dropped
    { type := "ping", payload := { fields := [], field_name := "", field_value := "" } }
    initialState (by decide) (by decide) (by decide)

/-- C7: update_field is idempotent — applying the same update_field message
twice in succession produces exactly the same state (in particular the
same FieldValues) as applying it once, for every prior state. -/
theorem C7_update_field_idempotent (s : AppState) (p : Payload) :
    onServerMessage { type := "update_field", payload := p }
        (onServerMessage { type := "update_field", payload := p } s) =
      onServerMessage { type := "update_field", payload := p } s := by
  simp [onServerMessage, setFormValue_idem]

/-- C8: update_field is accepted for every field name — also when the name
is absent from the current FormDefinition and when no form is open at all:
the (name, value) entry lands in FieldValues, the FormDefinition and the
connection state are untouched, and no check rejects the event (the
theorem carries no precondition relating the name to the open form). -/
theorem C8_update_field_unchecked (s : AppState) (p : Payload) :
    getFormValue (onServerMessage { type := "update_field", payload := p } s).formValues
      p.field_name = some p.field_value ∧
    (onServerMessage { type := "update_field", payload := p } s).formFields = s.formFields ∧
    (onServerMessage { type := "update_field", payload := p } s).connectionState =
      s.connectionState := by
  refine ⟨?_, ?_, ?_⟩ <;> simp [onServerMessage, getFormValue_set_self]

/-- C9: frame property of the message handler — no inbound server message
of any type ever changes the connection state, and an update_field message
leaves every FieldValues key other than the updated one exactly as it was. -/
theorem C9_server_message_frame (msg : ServerMessage) (s : AppState) (k : String) :
    (onServerMessage msg s).connectionState = s.connectionState ∧
    (msg.type = "update_field" → k ≠ msg.payload.field_name →
      getFormValue (onServerMessage msg s).formValues k = getFormValue s.formValues k) := by
  refine ⟨onServerMessage_connectionState msg s, ?_⟩
  intro ht hk
  simp [onServerMessage, ht, getFormValue_set_other _ _ _ _ hk]

/-- C1 counterexample: from a reachable connected state with an active
form and a filled value, a transport error (onError, a valid event there)
moves the connection state out of `connected` to `error`, yet the form
definition is still present and the field values are still non-empty —
the claim that every transition out of `connected` clears both is false
for the `error` transition. -/
theorem C1_counterexample :
    demoState.connectionState = ConnectionState.connected ∧
    validEvent demoState Event.errorEvt = true ∧
    (step demoState Event.errorEvt).connectionState = ConnectionState.error ∧
    (step demoState Event.errorEvt).formFields ≠ none ∧
    (step demoState Event.errorEvt).formValues ≠ [] := by
  decide

/-- C1 (amended): every transition from `connected` to `idle` — the
onDisconnected callback, fired on disconnect or transport close — clears
FormDefinition and FieldValues; the transition from `connected` to
`error` (onError, transport error) leaves both unchanged. -/
theorem C1_amended_disconnect_clears (s : AppState)
    (h : s.connectionState = ConnectionState.connected) :
    (step s Event.disconnectEvt).connectionState = ConnectionState.idle ∧
    (step s Event.disconnectEvt).formFields = none ∧
    (step s Event.disconnectEvt).formValues = [] ∧
    (step s Event.errorEvt).connectionState = ConnectionState.error ∧
    (step s Event.errorEvt).formFields = s.formFields ∧
    (step s Event.errorEvt).formValues = s.formValues :=
  ⟨rfl, rfl, rfl, rfl, rfl, rfl⟩

/-- C1 witness: the amended claim at the reachable connected state with an
active form. -/
theorem C1_amended_witness :
    demoState.connectionState = ConnectionState.connected ∧
    (step demoState Event.disconnectEvt).formFields = none ∧
    (step demoState Event.disconnectEvt).formValues = [] :=
  ⟨by decide,
    (C1_amended_disconnect_clears demoState (by decide)).2.1,
    (C1_amended_disconnect_clears demoState (by decide)).2.2.1⟩

/-- C3: a connect call whose transport open rejects drives the connection
state to `error` (the catch branch); afterwards no automatic retry occurs —
from `error`, every valid event other than a fresh connect call leaves the
state at `error`, and a fresh connect call re-attempts (state becomes
`connecting`). -/
theorem C3_connect_failure_terminal (s t : AppState) (e : Event)
    (hs : s.clientInit = true)
    (ht : t.connectionState = ConnectionState.error)
    (htc : t.clientInit = true)
    (hv : validEvent t e = true)
    (hne : e ≠ Event.connectCall) :
    (run s [Event.connectCall, Event.connectFail]).connectionState =
      ConnectionState.error ∧
    (step t e).connectionState = ConnectionState.error ∧
    (step t Event.connectCall).connectionState = ConnectionState.connecting := by
  refine ⟨?_, ?_, ?_⟩
  · simp [run, step, handleConnectStart, handleConnectCatch, hs]
  · cases e with
    | connectCall => exact absurd rfl hne
    | connectOk => simp_all [validEvent]
    | connectFail => simp_all [validEvent]
    | disconnectEvt => simp_all [validEvent]
    | errorEvt => simp_all [validEvent]
    | serverMsg msg =>
        show (onServerMessage msg t).connectionState = ConnectionState.error
        rw [onServerMessage_connectionState, ht]
  · simp [step, handleConnectStart, htc]

/-- C3 witness: the failed-attempt, stays-in-error and re-attempt clauses
at concrete states, with a server message as the intervening valid event. -/
theorem C3_connect_failure_terminal_witness :
    (run initialState [Event.connectCall, Event.connectFail]).connectionState =
      ConnectionState.error ∧
    (step { clientInit := true, connectionState := ConnectionState.error,
            formFields := none, formValues := [] }
        (Event.serverMsg updEmail)).connectionState = ConnectionState.error ∧
    (step { clientInit := true, connectionState := ConnectionState.error,
            formFields := none, formValues := [] }
        Event.connectCall).connectionState = ConnectionState.connecting :=
  C3_connect_failure_terminal initialState
    { clientInit := true, connectionState := ConnectionState.error,
      formFields := none, formValues := [] }
    (Event.serverMsg updEmail) rfl rfl rfl (by decide) (by decide)

/-- C4: a re-entrant connect while already `connecting` or `connected` is
never reachable through the UI (the button calls handleDisconnect while
connected and is disabled while connecting), and even a direct call is
deterministic and harmless: it is either the superseding call (state
becomes `connecting`) or, with a null client, a no-op — and the resulting
state is always one of the four documented states. -/
theorem C4_reentrant_connect (s : AppState)
    (h : s.connectionState = ConnectionState.connecting ∨
         s.connectionState = ConnectionState.connected) :
    buttonAction s.connectionState ≠ ButtonAction.callsConnect ∧
    ((step s Event.connectCall).connectionState = ConnectionState.connecting ∨
      step s Event.connectCall = s) ∧
    (step s Event.connectCall).connectionState ∈ documentedStates := by
  refine ⟨?_, ?_, mem_documentedStates _⟩
  · rcases h with h | h <;> simp [buttonAction, h]
  · cases hc : s.clientInit
    · exact Or.inr (by simp [step, handleConnectStart, hc])
    · exact Or.inl (by simp [step, handleConnectStart, hc])

/-- C4 witness: the re-entrancy guarantees at a concrete connected state. -/
theorem C4_reentrant_connect_witness :
    buttonAction ConnectionState.connected ≠ ButtonAction.callsConnect ∧
    ((step { clientInit := true, connectionState := ConnectionState.connected,
             formFields := none, formValues := [] }
        Event.connectCall).connectionState = ConnectionState.connecting ∨
      step { clientInit := true, connectionState := ConnectionState.connected,
             formFields := none, formValues := [] }
        Event.connectCall =
        { clientInit := true, connectionState := ConnectionState.connected,
          formFields := none, formValues := [] }) :=
  ⟨(C4_reentrant_connect
      { clientInit := true, connectionState := ConnectionState.connected,
        formFields := none, formValues := [] } (Or.inr rfl)).1,
    (C4_reentrant_connect
      { clientInit := true, connectionState := ConnectionState.connected,
        formFields := none, formValues := [] } (Or.inr rfl)).2.1⟩

/-- C5: every valid step either leaves the connection state unchanged or
moves it along one of the transitions of the §4.1 table, and after any
sequence of events the connection state is one of the four documented
states {idle, connecting, connected, error}. -/
theorem C5_state_machine (s : AppState) (e : Event) (es : List Event)
    (hvalid : validEvent s e = true) :
    ((step s e).connectionState = s.connectionState ∨
      specTrans s.connectionState (step s e).connectionState = true) ∧
    (run s es).connectionState ∈ documentedStates := by
  refine ⟨?_, mem_documentedStates _⟩
  cases e with
  | connectCall =>
      cases hc : s.clientInit
      · exact Or.inl (by simp [step, handleConnectStart, hc])
      · refine Or.inr ?_
        cases hs : s.connectionState <;>
          simp_all [step, handleConnectStart, validEvent, specTrans]
  | connectOk =>
      refine Or.inr ?_
      cases hs : s.connectionState <;>
        simp_all [step, onConnected, validEvent, specTrans]
  | connectFail =>
      refine Or.inr ?_
      cases hs : s.connectionState <;>
        simp_all [step, handleConnectCatch, validEvent, specTrans]
  | disconnectEvt =>
      refine Or.inr ?_
      cases hs : s.connectionState <;>
        simp_all [step, onDisconnected, validEvent, specTrans]
  | errorEvt =>
      refine Or.inr ?_
      cases hs : s.connectionState <;>
        simp_all [step, onError, validEvent, specTrans]
  | serverMsg msg =>
      exact Or.inl (onServerMessage_connectionState msg s)

/-- C5 witness: a valid connect call from the initial state follows the
table (idle → connecting) and a run stays in the documented state set. -/
theorem C5_state_machine_witness :
    validEvent initialState Event.connectCall = true ∧
    ((step initialState Event.connectCall).connectionState =
        initialState.connectionState ∨
      specTrans initialState.connectionState
        (step initialState Event.connectCall).connectionState = true) ∧
    (run initialState [Event.connectCall, Event.connectOk]).connectionState ∈
      documentedStates :=
  ⟨by decide,
    (C5_state_machine initialState Event.connectCall
      [Event.connectCall, Event.connectOk] (by decide)).1,
    (C5_state_machine initialState Event.connectCall
      [Event.connectCall, Event.connectOk] (by decide)).2⟩

/-- C10: a connect call made while the client ref is still null returns at
the `if (!client.current) return;` guard: the whole state is unchanged —
in particular the connection state keeps its previous value instead of
becoming `connecting`. -/
theorem C10_null_client_noop (s : AppState) (h : s.clientInit = false) :
    step s Event.connectCall = s ∧
    (step s Event.connectCall).connectionState = s.connectionState := by
  have hstep : step s Event.connectCall = s := by
    simp [step, handleConnectStart, h]
  exact ⟨hstep, by rw [hstep]⟩

/-- C10 witness: the null-client guard at a concrete idle state. -/
theorem C10_null_client_noop_witness :
    step { clientInit := false, connectionState := ConnectionState.idle,
           formFields := none, formValues := [] } Event.connectCall =
      { clientInit := false, connectionState := ConnectionState.idle,
        formFields := none, formValues := [] } :=
  (C10_null_client_noop
    { clientInit := false, connectionState := ConnectionState.idle,
      formFields := none, formValues := [] } rfl).1

/-- C9 witness: the frame property at a concrete update_field message,
state and untouched key. -/
theorem C9_server_message_frame_witness :
    (onServerMessage
      { type := "update_field",
        payload := { fields := [], field_name := "email", field_value := "x" } }
      initialState).connectionState = initialState.connectionState ∧
    getFormValue
      (onServerMessage
        { type := "update_field",
          payload := { fields := [], field_name := "email", field_value := "x" } }
        initialState).formValues "name" =
      getFormValue initialState.formValues "name" :=
  ⟨(C9_server_message_frame
      { type := "update_field",
        payload := { fields := [], field_name := "email", field_value := "x" } }
      initialState "name").1,
    (C9_server_message_frame
      { type := "update_field",
        payload := { fields := [], field_name := "email", field_value := "x" } }
      initialState "name").2 rfl (by decide)⟩

end FormFiller
